import Mathlib

/-!
Shallow embedding of `mcp-bearer-token/health_mcp_server.py`: a small
health-and-wellness MCP tool server backed by a two-table SQLite store
(`reminders`, `progress`), with a bearer-token HTTP middleware and five
tools (`validate`, `set_reminder`, `get_reminders`, `get_wellness_tip`,
`track_progress`).

Modelling decisions:
* The SQLite database is a `DB` record holding the two tables as lists of
  rows, in rowid (insertion) order, which is the order an unqualified
  `SELECT` scan returns them.
* `datetime` values are modelled as `Int` seconds; `timedelta.days` is
  floor division of the difference by 86400 (Python `timedelta`
  normalises so that `.days` is the floor of the day count).
* Each tool handler is a function from the database and its arguments to
  `Except HTTPError (DB × String)`: `raise HTTPException` in Python is the
  `Except.error` branch, and the returned `DB` is the state after the
  SQL statements of the handler have committed.
* `INSERT OR REPLACE` into `reminders` hits the declared
  `PRIMARY KEY (user_id, reminder_type)`: SQLite deletes any conflicting
  row and inserts the new row with a fresh rowid, so the model removes
  rows with the same key and appends the new row at the end.
* `INSERT OR REPLACE` into `progress` has no uniqueness constraint to
  conflict with (the table declares no primary key), so it is a plain
  insert: the model appends a row.
* The Python test `if not puch_user_id` is truthy both for a missing
  header (`none`) and for an empty string.
-/

namespace HealthMCP

/-- Python `fastapi.HTTPException`, reduced to the two fields the server
sets. -/
structure HTTPError where
  status_code : Nat
  detail : String
deriving Repr, DecidableEq

/-- One row of the `reminders` table:
`reminders(user_id, reminder_type, reminder_time, created_at)` with
`PRIMARY KEY (user_id, reminder_type)`. -/
structure ReminderRow where
  user_id : String
  reminder_type : String
  reminder_time : String
  created_at : Int
deriving Repr, DecidableEq

/-- One row of the `progress` table:
`progress(user_id, category, value, last_updated)`, no primary key. -/
structure ProgressRow where
  user_id : String
  category : String
  value : Int
  last_updated : Int
deriving Repr, DecidableEq

/-- The SQLite database `health_data.db`: both tables, rows in rowid
(insertion) order. -/
structure DB where
  reminders : List ReminderRow
  progress : List ProgressRow
deriving Repr, DecidableEq

/-- The freshly created database: both `CREATE TABLE` statements leave
empty tables. -/
def DB.empty : DB := ⟨[], []⟩

/-- Pydantic model `SetReminderInput`. -/
structure SetReminderInput where
  reminder_type : String
  reminder_time : String
deriving Repr, DecidableEq

/-- Pydantic model `TrackProgressInput`. -/
structure TrackProgressInput where
  category : String
  value : Int
deriving Repr, DecidableEq

/-- Python truthiness test `not puch_user_id` on the optional header:
true when the header is missing or the empty string. -/
def isFalsy : Option String → Bool
  | none => true
  | some s => s == ""

/-- Two reminder rows collide on the primary key
`(user_id, reminder_type)` of the table. -/
def sameKey (a b : ReminderRow) : Bool :=
  a.user_id == b.user_id && a.reminder_type == b.reminder_type

/-- Tool `validate`: returns the configured `MY_NUMBER` identity string. -/
def validate (my_number : String) : String := my_number

/-- Tool `set_reminder`: rejects a falsy `puch_user_id` with HTTP 400,
otherwise runs `INSERT OR REPLACE INTO reminders` keyed by
`(user_id, reminder_type)` (the conflicting row, if any, is deleted and
the new row inserted at a fresh rowid) and returns the confirmation
string. -/
def set_reminder (db : DB) (input : SetReminderInput)
    (puch_user_id : Option String) (now : Int) :
    Except HTTPError (DB × String) :=
  if isFalsy puch_user_id then
    Except.error ⟨400, "puch_user_id required"⟩
  else
    Except.ok
      ({ db with reminders :=
          (db.reminders.filter
            (fun r =>
              !sameKey r ⟨puch_user_id.getD "", input.reminder_type, input.reminder_time, now⟩)) ++
            [⟨puch_user_id.getD "", input.reminder_type, input.reminder_time, now⟩] },
        "Reminder set for " ++ input.reminder_type ++ " at " ++ input.reminder_time ++ "!")

/-- The f-string line rendered by `get_reminders` for each fetched row:
`"- {type} at {time} (set on {created})"` plus a newline. -/
def reminderLine (r : ReminderRow) : String :=
  "- " ++ r.reminder_type ++ " at " ++ r.reminder_time ++ " (set on " ++
    toString r.created_at ++ ")\n"

/-- Python `timedelta.days` for a difference of `Int`-second datetimes:
floor division by 86400. -/
def timedeltaDays (delta : Int) : Int := delta.fdiv 86400

/-- Tool `get_reminders`: rejects a falsy `puch_user_id` with HTTP 400;
otherwise selects the rows of that user in scan order. With no rows it
returns the fixed no-reminders message; with rows it accumulates one
line per row and appends the streak line computed from `created_at` of
the first fetched row. The handler runs no INSERT or UPDATE, so the
database is returned as received. -/
def get_reminders (db : DB) (puch_user_id : Option String) (now : Int) :
    Except HTTPError (DB × String) :=
  if isFalsy puch_user_id then
    Except.error ⟨400, "puch_user_id required"⟩
  else
    match db.reminders.filter (fun r => r.user_id == puch_user_id.getD "") with
    | [] => Except.ok (db, "No active reminders. Set one with \x27set_reminder\x27!")
    | first :: rest =>
      Except.ok (db,
        (first :: rest).foldl (fun acc r => acc ++ reminderLine r) "Your reminders:\n" ++
          "Progress update: You\x27ve been on track for " ++
          toString (timedeltaDays (now - first.created_at)) ++ " days!")

/-- The `tips` dictionary of `get_wellness_tip`, in source order. -/
def tips : List (String × String) :=
  [("nutrition", "Eat balanced meals with veggies, proteins, and whole grains. Try adding spinach to your salad for iron!"),
   ("stress", "Practice deep breathing: Inhale for 4 seconds, hold for 4, exhale for 4. Repeat 5 times."),
   ("workout", "Quick home workout: 10 push-ups, 20 squats, 30-second plank. No equipment needed!")]

/-- Tool `get_wellness_tip`: Python
`tips.get(category, "Tip not found for that category.")`. -/
def get_wellness_tip (category : String) : String :=
  (tips.lookup category).getD "Tip not found for that category."

/-- Tool `track_progress`: rejects a falsy `puch_user_id` with HTTP 400,
otherwise runs `INSERT OR REPLACE INTO progress`; since the `progress`
table declares no primary key or unique constraint, `OR REPLACE` never
fires and the statement inserts a fresh row. -/
def track_progress (db : DB) (input : TrackProgressInput)
    (puch_user_id : Option String) (now : Int) :
    Except HTTPError (DB × String) :=
  if isFalsy puch_user_id then
    Except.error ⟨400, "puch_user_id required"⟩
  else
    Except.ok
      ({ db with progress :=
          db.progress ++ [⟨puch_user_id.getD "", input.category, input.value, now⟩] },
        "Progress updated: " ++ toString input.value ++ " for " ++ input.category ++
          ". Great job!")

/-- Character-list recursion behind `strStartsWith`: does the second
list begin with the first? -/
def startsWithAux : List Char → List Char → Bool
  | [], _ => true
  | _ :: _, [] => false
  | p :: ps, c :: cs => p == c && startsWithAux ps cs

/-- Python `path.startswith(pre)` from the middleware condition,
decided on the character lists of the strings. -/
def strStartsWith (s pre : String) : Bool := startsWithAux pre.data s.data

/-- The `add_auth` HTTP middleware: a request whose path starts with
`/mcp` and whose `authorization` header differs from
`"Bearer " + AUTH_TOKEN` is rejected with HTTP 401 before `call_next`
runs; every other request is passed to `call_next` and its response
returned unchanged. `call_next` is kept abstract as a thunk so that
non-invocation of the downstream handler is visible in the result. -/
def add_auth {α : Type} (auth_token : String) (path : String)
    (authorization : Option String) (call_next : Unit → α) :
    Except HTTPError α :=
  if strStartsWith path "/mcp" && !(authorization == some ("Bearer " ++ auth_token)) then
    Except.error ⟨401, "Invalid token"⟩
  else
    Except.ok (call_next ())

/-- One invocation of an exposed tool, with the ambient clock value
captured in the call. -/
inductive ToolCall where
  | setReminderCall (input : SetReminderInput) (puch_user_id : Option String) (now : Int)
  | getRemindersCall (puch_user_id : Option String) (now : Int)
  | trackProgressCall (input : TrackProgressInput) (puch_user_id : Option String) (now : Int)
  | getTipCall (category : String)
  | validateCall
deriving Repr

/-- The database state after one tool call: an erroring handler has
committed nothing, a successful handler leaves its returned state. -/
def execCall (db : DB) : ToolCall → DB
  | ToolCall.setReminderCall input uid now =>
    match set_reminder db input uid now with
    | Except.ok (db2, _) => db2
    | Except.error _ => db
  | ToolCall.getRemindersCall uid now =>
    match get_reminders db uid now with
    | Except.ok (db2, _) => db2
    | Except.error _ => db
  | ToolCall.trackProgressCall input uid now =>
    match track_progress db input uid now with
    | Except.ok (db2, _) => db2
    | Except.error _ => db
  | ToolCall.getTipCall _ => db
  | ToolCall.validateCall => db

/-- The database state after a sequence of tool calls. -/
def execCalls (db : DB) : List ToolCall → DB
  | [] => db
  | c :: cs => execCalls (execCall db c) cs

/-- The reminders-table invariant enforced by its primary key: no two
rows share a `(user_id, reminder_type)` key. -/
def remindersKeyUnique : List ReminderRow → Bool
  | [] => true
  | r :: rest => rest.all (fun s => !sameKey r s) && remindersKeyUnique rest

/-- Modelled from the spec (section 4.2): the per-reminder summary line
shape `"- {type} at {time} (set on {createdAt})"`. -/
def specReminderLine (r : ReminderRow) : String :=
  "- " ++ r.reminder_type ++ " at " ++ r.reminder_time ++ " (set on " ++
    toString r.created_at ++ ")\n"

/-- Modelled from the spec (section 4.2): the whole number of days
elapsed between the `created_at` of a row and the current time. -/
def specWholeDays (created now : Int) : Int := (now - created).fdiv 86400

/-- Concatenation of the rendered line of every row, in scan order. -/
def strConcatMap (f : ReminderRow → String) : List ReminderRow → String
  | [] => ""
  | r :: rest => f r ++ strConcatMap f rest

/-! ## Helper lemmas -/

theorem isFalsy_some_eq_false {u : String} (h : u ≠ "") : isFalsy (some u) = false := by
  simp only [isFalsy]
  exact beq_eq_false_iff_ne.mpr h

theorem filter_filter_not_nil {α : Type} (p : α → Bool) (l : List α) :
    (l.filter fun a => !p a).filter p = [] := by
  induction l with
  | nil => rfl
  | cons a l ih => cases h : p a <;> simp [List.filter_cons, h, ih]

theorem filter_not_idem {α : Type} (p : α → Bool) (l : List α) :
    ((l.filter fun a => !p a).filter fun a => !p a) = l.filter fun a => !p a := by
  induction l with
  | nil => rfl
  | cons a l ih => cases h : p a <;> simp [List.filter_cons, h, ih]

theorem all_filter_of_all {α : Type} (p q : α → Bool) (l : List α)
    (h : l.all q = true) : (l.filter p).all q = true := by
  rw [List.all_eq_true] at h ⊢
  intro x hx
  exact h x (List.mem_of_mem_filter hx)

theorem all_filter_self {α : Type} (p : α → Bool) (l : List α) :
    (l.filter p).all p = true := by
  rw [List.all_eq_true]
  intro x hx
  exact (List.mem_filter.mp hx).2

theorem foldl_strConcatMap (f : ReminderRow → String) (l : List ReminderRow) :
    ∀ init : String, l.foldl (fun acc r => acc ++ f r) init = init ++ strConcatMap f l := by
  induction l with
  | nil => intro init; simp [strConcatMap, String.append_empty]
  | cons r l ih =>
    intro init
    simp only [List.foldl_cons, strConcatMap, ih, String.append_assoc]

/-! ## Equation lemmas for the handlers -/

theorem set_reminder_eq_error (db : DB) (input : SetReminderInput)
    (uid : Option String) (now : Int) (h : isFalsy uid = true) :
    set_reminder db input uid now = Except.error ⟨400, "puch_user_id required"⟩ := by
  simp [set_reminder, h]

theorem set_reminder_eq_ok (db : DB) (input : SetReminderInput)
    (uid : Option String) (now : Int) (h : isFalsy uid = false) :
    set_reminder db input uid now =
      Except.ok
        ({ db with reminders :=
            (db.reminders.filter
              (fun r =>
                !sameKey r ⟨uid.getD "", input.reminder_type, input.reminder_time, now⟩)) ++
              [⟨uid.getD "", input.reminder_type, input.reminder_time, now⟩] },
          "Reminder set for " ++ input.reminder_type ++ " at " ++ input.reminder_time ++ "!") := by
  simp [set_reminder, h]

theorem track_progress_eq_error (db : DB) (input : TrackProgressInput)
    (uid : Option String) (now : Int) (h : isFalsy uid = true) :
    track_progress db input uid now = Except.error ⟨400, "puch_user_id required"⟩ := by
  simp [track_progress, h]

theorem track_progress_eq_ok (db : DB) (input : TrackProgressInput)
    (uid : Option String) (now : Int) (h : isFalsy uid = false) :
    track_progress db input uid now =
      Except.ok
        ({ db with progress :=
            db.progress ++ [⟨uid.getD "", input.category, input.value, now⟩] },
          "Progress updated: " ++ toString input.value ++ " for " ++ input.category ++
            ". Great job!") := by
  simp [track_progress, h]

theorem get_reminders_eq_error (db : DB) (uid : Option String) (now : Int)
    (h : isFalsy uid = true) :
    get_reminders db uid now = Except.error ⟨400, "puch_user_id required"⟩ := by
  simp [get_reminders, h]

theorem get_reminders_eq_of_scan_nil (db : DB) (uid : Option String) (now : Int)
    (h : isFalsy uid = false)
    (hscan : db.reminders.filter (fun r => r.user_id == uid.getD "") = []) :
    get_reminders db uid now =
      Except.ok (db, "No active reminders. Set one with \x27set_reminder\x27!") := by
  simp [get_reminders, h, hscan]

theorem get_reminders_eq_of_scan_cons (db : DB) (uid : Option String) (now : Int)
    (first : ReminderRow) (rest : List ReminderRow) (h : isFalsy uid = false)
    (hscan : db.reminders.filter (fun r => r.user_id == uid.getD "") = first :: rest) :
    get_reminders db uid now =
      Except.ok (db,
        (first :: rest).foldl (fun acc r => acc ++ reminderLine r) "Your reminders:\n" ++
          "Progress update: You\x27ve been on track for " ++
          toString (timedeltaDays (now - first.created_at)) ++ " days!") := by
  simp [get_reminders, h, hscan]

theorem get_reminders_db_eq (db : DB) (uid : Option String) (now : Int)
    (db2 : DB) (s : String) (hok : get_reminders db uid now = Except.ok (db2, s)) :
    db2 = db := by
  cases hf : isFalsy uid with
  | true => rw [get_reminders_eq_error db uid now hf] at hok; exact absurd hok (by simp)
  | false =>
    cases hscan : db.reminders.filter (fun r => r.user_id == uid.getD "") with
    | nil =>
      rw [get_reminders_eq_of_scan_nil db uid now hf hscan] at hok
      simp only [Except.ok.injEq, Prod.mk.injEq] at hok
      exact hok.1.symm
    | cons first rest =>
      rw [get_reminders_eq_of_scan_cons db uid now first rest hf hscan] at hok
      simp only [Except.ok.injEq, Prod.mk.injEq] at hok
      exact hok.1.symm

theorem execCall_getReminders_eq (db : DB) (uid : Option String) (now : Int) :
    execCall db (ToolCall.getRemindersCall uid now) = db := by
  simp only [execCall]
  cases hres : get_reminders db uid now with
  | error e => rfl
  | ok pair =>
    cases pair with
    | mk db2 s => exact get_reminders_db_eq db uid now db2 s hres

theorem remindersKeyUnique_filter (p : ReminderRow → Bool) (l : List ReminderRow)
    (h : remindersKeyUnique l = true) : remindersKeyUnique (l.filter p) = true := by
  induction l with
  | nil => rfl
  | cons r l ih =>
    simp only [remindersKeyUnique, Bool.and_eq_true] at h
    cases hp : p r with
    | false =>
      simp only [List.filter_cons, hp, Bool.false_eq_true, if_false]
      exact ih h.2
    | true =>
      simp only [List.filter_cons, hp, if_true]
      simp only [remindersKeyUnique, Bool.and_eq_true]
      exact ⟨all_filter_of_all p _ l h.1, ih h.2⟩

theorem remindersKeyUnique_append_single (l : List ReminderRow) (x : ReminderRow)
    (hu : remindersKeyUnique l = true) (hx : l.all (fun e => !sameKey e x) = true) :
    remindersKeyUnique (l ++ [x]) = true := by
  induction l with
  | nil => rfl
  | cons r l ih =>
    simp only [remindersKeyUnique, Bool.and_eq_true] at hu
    simp only [List.all_cons, Bool.and_eq_true] at hx
    simp only [List.cons_append, remindersKeyUnique, Bool.and_eq_true]
    refine ⟨?_, ih hu.2 hx.2⟩
    rw [List.all_eq_true]
    intro s hs
    rcases List.mem_append.mp hs with hmem | hmem
    · exact List.all_eq_true.mp hu.1 s hmem
    · cases List.mem_singleton.mp hmem
      exact hx.1

theorem set_reminder_keyUnique (db : DB) (input : SetReminderInput)
    (uid : Option String) (now : Int)
    (hu : remindersKeyUnique db.reminders = true) :
    remindersKeyUnique
      (execCall db (ToolCall.setReminderCall input uid now)).reminders = true := by
  cases hf : isFalsy uid with
  | true =>
    simp only [execCall, set_reminder_eq_error db input uid now hf]
    exact hu
  | false =>
    simp only [execCall, set_reminder_eq_ok db input uid now hf]
    exact remindersKeyUnique_append_single _ _
      (remindersKeyUnique_filter _ _ hu) (all_filter_self _ _)

theorem execCall_trackProgress_reminders (db : DB) (input : TrackProgressInput)
    (uid : Option String) (now : Int) :
    (execCall db (ToolCall.trackProgressCall input uid now)).reminders = db.reminders := by
  cases hf : isFalsy uid with
  | true => simp [execCall, track_progress_eq_error db input uid now hf]
  | false => simp [execCall, track_progress_eq_ok db input uid now hf]

theorem execCall_keyUnique (db : DB) (c : ToolCall)
    (hu : remindersKeyUnique db.reminders = true) :
    remindersKeyUnique (execCall db c).reminders = true := by
  cases c with
  | setReminderCall input uid now => exact set_reminder_keyUnique db input uid now hu
  | getRemindersCall uid now => rw [execCall_getReminders_eq]; exact hu
  | trackProgressCall input uid now => rw [execCall_trackProgress_reminders]; exact hu
  | getTipCall category => exact hu
  | validateCall => exact hu

theorem execCalls_keyUnique (calls : List ToolCall) :
    ∀ db : DB, remindersKeyUnique db.reminders = true →
      remindersKeyUnique (execCalls db calls).reminders = true := by
  induction calls with
  | nil => intro db hu; exact hu
  | cons c cs ih => intro db hu; exact ih (execCall db c) (execCall_keyUnique db c hu)

theorem your_ne_no (s : String) :
    "Your reminders:\n" ++ s ≠
      "No active reminders. Set one with \x27set_reminder\x27!" := by
  intro hEq
  have h2 := congrArg String.data hEq
  rw [String.data_append] at h2
  have e1 : ("Your reminders:\n").data = 'Y' :: ("our reminders:\n").data := rfl
  have e2 : ("No active reminders. Set one with \x27set_reminder\x27!").data =
      'N' :: ("o active reminders. Set one with \x27set_reminder\x27!").data := rfl
  rw [e1, e2, List.cons_append] at h2
  simp only [List.cons.injEq] at h2
  exact absurd h2.1 (by decide)

/-! ## Claim theorems -/

/-- C1: a request whose path starts with the protected `/mcp` prefix and
whose `authorization` header equals `"Bearer " + AUTH_TOKEN` reaches the
downstream handler; with the prefix but a missing or different header it
is rejected with HTTP 401 and the downstream handler is never invoked
(the result is independent of it); a request outside the prefix passes
through unchanged with no auth check. -/
theorem add_auth_gate {α : Type} (auth_token path : String)
    (authorization : Option String) (f g : Unit → α) :
    (strStartsWith path "/mcp" = true →
        authorization = some ("Bearer " ++ auth_token) →
        add_auth auth_token path authorization f = Except.ok (f ())) ∧
    (strStartsWith path "/mcp" = true →
        authorization ≠ some ("Bearer " ++ auth_token) →
        add_auth auth_token path authorization f = Except.error ⟨401, "Invalid token"⟩ ∧
          add_auth auth_token path authorization f = add_auth auth_token path authorization g) ∧
    (strStartsWith path "/mcp" = false →
        add_auth auth_token path authorization f = Except.ok (f ())) := by
  refine ⟨?_, ?_, ?_⟩
  · intro hp ha
    simp [add_auth, ha]
  · intro hp ha
    have hb : (authorization == some ("Bearer " ++ auth_token)) = false :=
      beq_eq_false_iff_ne.mpr ha
    constructor <;> simp [add_auth, hp, hb]
  · intro hp
    simp [add_auth, hp]

/-- Witness for C1: a request under `/mcp` with no `authorization`
header is rejected with 401. -/
theorem add_auth_gate_witness :
    add_auth "secret" "/mcp/tool" none (fun _ => (0 : Nat)) =
      Except.error ⟨401, "Invalid token"⟩ :=
  ((add_auth_gate "secret" "/mcp/tool" none (fun _ => (0 : Nat)) (fun _ => (1 : Nat))).2.1
    (by decide) (by decide)).1

/-- C2: `set_reminder` for `(u, "hydration")` at `"every 2 hours"`
followed by `set_reminder` for the same key at `"every 3 hours"` leaves
exactly one row with key `(u, "hydration")` — `sameKey` compares only
`user_id` and `reminder_type` — and that row carries the second time and
timestamp. -/
theorem setReminder_upsert (db : DB) (u : String) (t1 t2 : Int) (h : u ≠ "")
    (db1 : DB) (m1 : String) (db2 : DB) (m2 : String)
    (_h1 : set_reminder db ⟨"hydration", "every 2 hours"⟩ (some u) t1 = Except.ok (db1, m1))
    (h2 : set_reminder db1 ⟨"hydration", "every 3 hours"⟩ (some u) t2 = Except.ok (db2, m2)) :
    db2.reminders.filter (fun r => sameKey r ⟨u, "hydration", "every 3 hours", t2⟩) =
      [⟨u, "hydration", "every 3 hours", t2⟩] := by
  have hf := isFalsy_some_eq_false h
  rw [set_reminder_eq_ok db1 _ _ _ hf] at h2
  simp only [Option.getD_some, Except.ok.injEq, Prod.mk.injEq] at h2
  obtain ⟨hdb2, -⟩ := h2
  subst hdb2
  rw [List.filter_append, filter_filter_not_nil]
  simp [List.filter_cons, sameKey]

/-- Witness for C2: the two writes against the empty store leave the
single row with time `"every 3 hours"`. -/
theorem setReminder_upsert_witness :
    (DB.mk [ReminderRow.mk "u1" "hydration" "every 3 hours" 5] []).reminders.filter
        (fun r => sameKey r ⟨"u1", "hydration", "every 3 hours", 5⟩) =
      [ReminderRow.mk "u1" "hydration" "every 3 hours" 5] :=
  setReminder_upsert DB.empty "u1" 0 5 (by decide)
    (DB.mk [ReminderRow.mk "u1" "hydration" "every 2 hours" 0] [])
    "Reminder set for hydration at every 2 hours!"
    (DB.mk [ReminderRow.mk "u1" "hydration" "every 3 hours" 5] [])
    "Reminder set for hydration at every 3 hours!"
    (by rfl) (by rfl)

/-- C3: each of `set_reminder`, `get_reminders` and `track_progress`
invoked without the `puch_user_id` header fails with the HTTP 400
client error, and the database (both tables) after the call is exactly
the database before it. -/
theorem missing_identity_rejected (db : DB) (now : Int)
    (input1 : SetReminderInput) (input2 : TrackProgressInput) :
    set_reminder db input1 none now = Except.error ⟨400, "puch_user_id required"⟩ ∧
    get_reminders db none now = Except.error ⟨400, "puch_user_id required"⟩ ∧
    track_progress db input2 none now = Except.error ⟨400, "puch_user_id required"⟩ ∧
    execCall db (ToolCall.setReminderCall input1 none now) = db ∧
    execCall db (ToolCall.getRemindersCall none now) = db ∧
    execCall db (ToolCall.trackProgressCall input2 none now) = db :=
  ⟨rfl, rfl, rfl, rfl, rfl, rfl⟩

/-- C4: every successful `track_progress` call appends one fresh row to
the `progress` table (and touches nothing else), so two calls for
`(u, "steps", 500)` grow the row count for that user and category by
exactly two — no overwrite. -/
theorem trackProgress_appends :
    (∀ (db : DB) (u c : String) (v now : Int) (db2 : DB) (m : String), u ≠ "" →
        track_progress db ⟨c, v⟩ (some u) now = Except.ok (db2, m) →
        db2.progress = db.progress ++ [⟨u, c, v, now⟩]) ∧
    (∀ (db : DB) (u : String) (t1 t2 : Int) (db1 : DB) (m1 : String)
        (db2 : DB) (m2 : String), u ≠ "" →
        track_progress db ⟨"steps", 500⟩ (some u) t1 = Except.ok (db1, m1) →
        track_progress db1 ⟨"steps", 500⟩ (some u) t2 = Except.ok (db2, m2) →
        (db2.progress.filter fun p => p.user_id == u && p.category == "steps").length =
          (db.progress.filter fun p => p.user_id == u && p.category == "steps").length + 2) := by
  have key : ∀ (db : DB) (u c : String) (v now : Int) (db2 : DB) (m : String), u ≠ "" →
      track_progress db ⟨c, v⟩ (some u) now = Except.ok (db2, m) →
      db2.progress = db.progress ++ [⟨u, c, v, now⟩] := by
    intro db u c v now db2 m h hok
    rw [track_progress_eq_ok db _ _ _ (isFalsy_some_eq_false h)] at hok
    simp only [Option.getD_some, Except.ok.injEq, Prod.mk.injEq] at hok
    obtain ⟨hdb, -⟩ := hok
    exact (congrArg DB.progress hdb).symm
  refine ⟨key, ?_⟩
  intro db u t1 t2 db1 m1 db2 m2 h h1 h2
  have e1 := key db u "steps" 500 t1 db1 m1 h h1
  have e2 := key db1 u "steps" 500 t2 db2 m2 h h2
  rw [e2, e1]
  simp [List.filter_append, List.filter_cons]

/-- Witness for C4: two `track_progress` calls against the empty store
leave two `(u1, steps)` rows. -/
theorem trackProgress_appends_witness :
    ((DB.mk [] [ProgressRow.mk "u1" "steps" 500 0,
        ProgressRow.mk "u1" "steps" 500 1]).progress.filter
          fun p => p.user_id == "u1" && p.category == "steps").length =
      (DB.empty.progress.filter
          fun p => p.user_id == "u1" && p.category == "steps").length + 2 :=
  trackProgress_appends.2 DB.empty "u1" 0 1
    (DB.mk [] [ProgressRow.mk "u1" "steps" 500 0])
    "Progress updated: 500 for steps. Great job!"
    (DB.mk [] [ProgressRow.mk "u1" "steps" 500 0, ProgressRow.mk "u1" "steps" 500 1])
    "Progress updated: 500 for steps. Great job!"
    (by decide) (by rfl) (by rfl)

/-- C5: for a user whose scan returns at least one row, `get_reminders`
returns the header line, one line per stored reminder of the shape
`"- {type} at {time} (set on {createdAt})"` in scan order, then the
streak line whose day count is the whole number of days between the
`created_at` of the first scanned row and the current time. -/
theorem getReminders_summary (db : DB) (u : String) (now : Int)
    (first : ReminderRow) (rest : List ReminderRow) (h : u ≠ "")
    (hscan : db.reminders.filter (fun r => r.user_id == u) = first :: rest) :
    get_reminders db (some u) now =
      Except.ok (db,
        ("Your reminders:\n" ++ strConcatMap specReminderLine (first :: rest)) ++
          "Progress update: You\x27ve been on track for " ++
          toString (specWholeDays first.created_at now) ++ " days!") := by
  have hf := isFalsy_some_eq_false h
  have hscan2 : db.reminders.filter (fun r => r.user_id == (some u).getD "") =
      first :: rest := hscan
  rw [get_reminders_eq_of_scan_cons db (some u) now first rest hf hscan2,
    foldl_strConcatMap]
  rfl

/-- Witness for C5: one stored reminder set three days and five seconds
ago renders its line and a three-day streak. -/
theorem getReminders_summary_witness :
    get_reminders (DB.mk [ReminderRow.mk "u1" "hydration" "every 2 hours" 0] [])
        (some "u1") 259205 =
      Except.ok (DB.mk [ReminderRow.mk "u1" "hydration" "every 2 hours" 0] [],
        ("Your reminders:\n" ++
          strConcatMap specReminderLine [ReminderRow.mk "u1" "hydration" "every 2 hours" 0]) ++
          "Progress update: You\x27ve been on track for " ++
          toString (specWholeDays 0 259205) ++ " days!") :=
  getReminders_summary (DB.mk [ReminderRow.mk "u1" "hydration" "every 2 hours" 0] [])
    "u1" 259205 (ReminderRow.mk "u1" "hydration" "every 2 hours" 0) []
    (by decide) (by rfl)

/-- C6: with the identity header supplied, `get_reminders` returns the
fixed no-reminders message exactly when the scan for the user returns
zero rows. -/
theorem getReminders_noRows_iff (db : DB) (u : String) (now : Int) (h : u ≠ "") :
    (get_reminders db (some u) now =
        Except.ok (db, "No active reminders. Set one with \x27set_reminder\x27!")) ↔
      db.reminders.filter (fun r => r.user_id == u) = [] := by
  have hf := isFalsy_some_eq_false h
  constructor
  · intro hok
    cases hscan : db.reminders.filter (fun r => r.user_id == u) with
    | nil => rfl
    | cons first rest =>
      have hscan2 : db.reminders.filter (fun r => r.user_id == (some u).getD "") =
          first :: rest := hscan
      rw [get_reminders_eq_of_scan_cons db (some u) now first rest hf hscan2] at hok
      simp only [Except.ok.injEq, Prod.mk.injEq] at hok
      have hmsg := hok.2
      rw [foldl_strConcatMap] at hmsg
      simp only [String.append_assoc] at hmsg
      exact absurd hmsg (your_ne_no _)
  · intro hscan
    have hscan2 : db.reminders.filter (fun r => r.user_id == (some u).getD "") = [] := hscan
    exact get_reminders_eq_of_scan_nil db (some u) now hf hscan2

/-- Witness for C6: a user with no rows gets the fixed message. -/
theorem getReminders_noRows_iff_witness :
    get_reminders DB.empty (some "u1") 0 =
      Except.ok (DB.empty, "No active reminders. Set one with \x27set_reminder\x27!") :=
  (getReminders_noRows_iff DB.empty "u1" 0 (by decide)).mpr (by rfl)

/-- C7: `get_wellness_tip` maps exactly `"nutrition"`, `"stress"` and
`"workout"` to their fixed advice strings and every other category to
the fixed not-found string; the function reads and writes no store, so
its result depends only on the category argument. -/
theorem get_wellness_tip_spec :
    get_wellness_tip "nutrition" =
      "Eat balanced meals with veggies, proteins, and whole grains. Try adding spinach to your salad for iron!" ∧
    get_wellness_tip "stress" =
      "Practice deep breathing: Inhale for 4 seconds, hold for 4, exhale for 4. Repeat 5 times." ∧
    get_wellness_tip "workout" =
      "Quick home workout: 10 push-ups, 20 squats, 30-second plank. No equipment needed!" ∧
    ∀ category : String,
      category ≠ "nutrition" → category ≠ "stress" → category ≠ "workout" →
      get_wellness_tip category = "Tip not found for that category." := by
  refine ⟨rfl, rfl, rfl, ?_⟩
  intro category h1 h2 h3
  simp [get_wellness_tip, tips, List.lookup,
    beq_eq_false_iff_ne.mpr h1, beq_eq_false_iff_ne.mpr h2, beq_eq_false_iff_ne.mpr h3]

/-- Witness for C7: an unrecognized category gets the not-found string. -/
theorem get_wellness_tip_spec_witness :
    get_wellness_tip "unknown" = "Tip not found for that category." :=
  get_wellness_tip_spec.2.2.2 "unknown" (by decide) (by decide) (by decide)

/-- C8: the at-most-one-row-per-`(user_id, reminder_type)` invariant of
the reminders table holds in the empty initial state, is preserved by
every exposed tool call, and therefore holds after any sequence of tool
calls from the initial state. -/
theorem reminders_key_unique_invariant :
    remindersKeyUnique DB.empty.reminders = true ∧
    (∀ (db : DB) (c : ToolCall), remindersKeyUnique db.reminders = true →
        remindersKeyUnique (execCall db c).reminders = true) ∧
    ∀ calls : List ToolCall, remindersKeyUnique (execCalls DB.empty calls).reminders = true := by
  refine ⟨rfl, execCall_keyUnique, ?_⟩
  intro calls
  exact execCalls_keyUnique calls DB.empty rfl

/-- Witness for C8: one `set_reminder` call against the empty store
preserves key uniqueness. -/
theorem reminders_key_unique_invariant_witness :
    remindersKeyUnique
      (execCall DB.empty
        (ToolCall.setReminderCall ⟨"hydration", "every 2 hours"⟩ (some "u1") 0)).reminders =
      true :=
  reminders_key_unique_invariant.2.1 DB.empty
    (ToolCall.setReminderCall ⟨"hydration", "every 2 hours"⟩ (some "u1") 0) (by decide)

/-- C9: `get_reminders` is read-only — a successful call returns both
tables unchanged, and as a state transition (success, no-reminders
message, or missing-header failure alike) it leaves the database
exactly as it was. -/
theorem getReminders_readonly :
    (∀ (db : DB) (uid : Option String) (now : Int) (db2 : DB) (s : String),
        get_reminders db uid now = Except.ok (db2, s) →
        db2.reminders = db.reminders ∧ db2.progress = db.progress) ∧
    ∀ (db : DB) (uid : Option String) (now : Int),
      execCall db (ToolCall.getRemindersCall uid now) = db := by
  refine ⟨?_, execCall_getReminders_eq⟩
  intro db uid now db2 s hok
  rw [get_reminders_db_eq db uid now db2 s hok]
  exact ⟨rfl, rfl⟩

/-- Witness for C9: a successful `get_reminders` call on the empty
store returns it unchanged. -/
theorem getReminders_readonly_witness :
    DB.empty.reminders = DB.empty.reminders ∧ DB.empty.progress = DB.empty.progress :=
  getReminders_readonly.1 DB.empty (some "u1") 0 DB.empty
    "No active reminders. Set one with \x27set_reminder\x27!" (by rfl)

/-- C10: a successful `set_reminder` leaves the `progress` table
unchanged and preserves, exactly and in order, every reminders row whose
`(user_id, reminder_type)` key differs from the written key; a
successful `track_progress` never changes the reminders table. -/
theorem setReminder_frame :
    (∀ (db : DB) (input : SetReminderInput) (uid : Option String) (now : Int)
        (db2 : DB) (m : String),
        set_reminder db input uid now = Except.ok (db2, m) →
        db2.progress = db.progress ∧
          db2.reminders.filter
              (fun r =>
                !sameKey r ⟨uid.getD "", input.reminder_type, input.reminder_time, now⟩) =
            db.reminders.filter
              (fun r =>
                !sameKey r ⟨uid.getD "", input.reminder_type, input.reminder_time, now⟩)) ∧
    ∀ (db : DB) (input : TrackProgressInput) (uid : Option String) (now : Int)
        (db2 : DB) (m : String),
        track_progress db input uid now = Except.ok (db2, m) →
        db2.reminders = db.reminders := by
  constructor
  · intro db input uid now db2 m hok
    cases hf : isFalsy uid with
    | true =>
      rw [set_reminder_eq_error db input uid now hf] at hok
      exact absurd hok (by simp)
    | false =>
      rw [set_reminder_eq_ok db input uid now hf] at hok
      simp only [Except.ok.injEq, Prod.mk.injEq] at hok
      obtain ⟨hdb, -⟩ := hok
      subst hdb
      refine ⟨rfl, ?_⟩
      rw [List.filter_append, filter_not_idem]
      simp [List.filter_cons, sameKey]
  · intro db input uid now db2 m hok
    cases hf : isFalsy uid with
    | true =>
      rw [track_progress_eq_error db input uid now hf] at hok
      exact absurd hok (by simp)
    | false =>
      rw [track_progress_eq_ok db input uid now hf] at hok
      simp only [Except.ok.injEq, Prod.mk.injEq] at hok
      obtain ⟨hdb, -⟩ := hok
      subst hdb
      rfl

/-- Witness for C10: writing `(u1, hydration)` preserves the row of the
other user untouched and the progress table unchanged. -/
theorem setReminder_frame_witness :
    (DB.mk [ReminderRow.mk "a" "exercise" "daily" 3,
        ReminderRow.mk "u1" "hydration" "every 2 hours" 7] []).progress =
      (DB.mk [ReminderRow.mk "a" "exercise" "daily" 3] []).progress ∧
    (DB.mk [ReminderRow.mk "a" "exercise" "daily" 3,
        ReminderRow.mk "u1" "hydration" "every 2 hours" 7] []).reminders.filter
          (fun r => !sameKey r ⟨"u1", "hydration", "every 2 hours", 7⟩) =
      (DB.mk [ReminderRow.mk "a" "exercise" "daily" 3] []).reminders.filter
          (fun r => !sameKey r ⟨"u1", "hydration", "every 2 hours", 7⟩) :=
  setReminder_frame.1 (DB.mk [ReminderRow.mk "a" "exercise" "daily" 3] [])
    ⟨"hydration", "every 2 hours"⟩ (some "u1") 7
    (DB.mk [ReminderRow.mk "a" "exercise" "daily" 3,
      ReminderRow.mk "u1" "hydration" "every 2 hours" 7] [])
    "Reminder set for hydration at every 2 hours!" (by rfl)

end HealthMCP
